import Mathlib

/-!
Shallow embedding of the route-retrieval-and-normalization component of
waze-home-cli (`src/waze_home/waze_api.py`), together with theorems checking
the natural-language specification against it.

Modelling conventions:
* Provider JSON payloads are modelled structurally; a dictionary key that may
  be absent becomes an `Option` field.  `waze_data` being falsy (empty dict)
  and the `alternatives` key being absent behave identically in the source, so
  both are `alternatives = none`.
* Timestamps are seconds (as `Int`); `datetime.now()` becomes an explicit
  `now` parameter, `timedelta` becomes addition of seconds.  The source
  renders departure/arrival with `strftime("%H:%M")`; the rendering is
  presentation-only and is abstracted, the model carries the underlying
  timestamps.
* Durations and distances coming from the provider are JSON numbers and are
  modelled as `Int` (the provider is not trusted to send non-negative values;
  the source copies them without clamping).
* Coordinates are decimal-degree pairs, modelled exactly as rationals.
* Network calls are modelled by an explicit outcome argument:
  `Except Unit α` with `.error` for a raised exception and `.ok` for a parsed
  body.  For geocoding the extracted list of candidate locations is passed
  (`.ok []` models success with no usable result; the source handles it with
  the same fallback-table-then-default logic as the exception branch).
* The `try` body of `_transform_waze_response` performs only defensive
  `.get` accesses after the alternatives guard, so on the typed model no
  exception can arise inside it; the guard branch is the modelled fallback.
-/

namespace WazeHome

/-- Coordinates as a (latitude, longitude) pair of rationals. -/
abbrev Coord := ℚ × ℚ

/-- One entry of the provider's `instructions` array; the `"instruction"` key
may be absent. -/
structure Instruction where
  instruction : Option String
deriving DecidableEq

/-- The `"response"` object inside one provider route alternative.  Every
field is optional: the source reads each one defensively. `jams` records the
length of the `"jams"` array when the key is present (`some 0` models a
present-but-empty array, which is falsy in the source). -/
structure AltResponse where
  totalSeconds : Option Int
  totalLength : Option Int
  instructions : Option (List Instruction)
  streetNames : Option (List String)
  jams : Option Nat
  routeType : Option String
deriving DecidableEq

/-- One provider route alternative: a dict that may or may not carry a
`"response"` object. -/
structure Alternative where
  response : Option AltResponse
deriving DecidableEq

/-- The parsed provider routing payload; `alternatives = none` models both a
falsy payload and a payload without the `"alternatives"` key. -/
structure WazeData where
  alternatives : Option (List Alternative)
deriving DecidableEq

/-- Normalized alternate-route entry (`name`, seconds, meters). -/
structure AlternateRoute where
  name : String
  total_time : Int
  total_distance : Int
deriving DecidableEq

/-- Normalized route summary, field order as in the source dict:
`totalLength` (meters), `totalTime` (seconds), `arrivalTime`,
`departureTime` (timestamps in seconds; the source stores `"%H:%M"` strings
derived from the corresponding datetimes). -/
structure RouteSummary where
  totalLength : Int
  totalTime : Int
  arrivalTime : Int
  departureTime : Int
deriving DecidableEq

/-- One normalized route.  `traffic_conditions` and `alternate_routes` are
optional keys: the formatter reads the former with a `"Unknown"` default and
checks membership of the latter. -/
structure Route where
  summary : RouteSummary
  directions : List String
  traffic_conditions : Option String
  alternate_routes : Option (List AlternateRoute)
deriving DecidableEq

/-- Normalized route data handed to the formatter; `routes = none` models a
falsy dict or a dict without the `"routes"` key. -/
structure RouteData where
  routes : Option (List Route)
deriving DecidableEq

/-- Address-to-coordinates resolution, `_get_coordinates_from_address`.
`live` is the outcome of the live geocoding request: `.ok locs` is a
successful response whose `"geocodes"` entries carry the listed locations
(empty when the key is missing or empty), `.error` a raised exception.  The
source returns the first live location when there is one; otherwise (no
results, or any exception) it consults the identical fallback table present
in both branches, and finally the hard-coded Perth-area default. -/
def _get_coordinates_from_address (address : String) (live : Except Unit (List Coord)) : Coord :=
  match live with
  | Except.ok (loc :: _) => loc
  | _ =>
    if address = "91 Abbett St, Scarborough WA 6019" then (-31.8941, 115.7586)
    else if address = "11 Mount St, Perth WA 6000" then (-31.9523, 115.8613)
    else (-31.9505, 115.8605)

/-- Traffic label derived from the route-type classification, the tail of
`_get_traffic_condition` (the `routeType` checks and the final
`"Normal traffic conditions"` return). -/
def trafficFromRouteType (r : AltResponse) : String :=
  match r.routeType with
  | some t =>
    if t = "SLOW" then "Heavy traffic"
    else if t = "MODERATE" then "Moderate traffic"
    else if t = "FAST" then "Light traffic"
    else "Normal traffic conditions"
  | none => "Normal traffic conditions"

/-- Traffic-condition computation, `_get_traffic_condition`.  Jam data is
consulted first (only when the `"jams"` array is present and non-empty), then
the `routeType` classification, else `"Normal traffic conditions"`;
`"Unknown traffic conditions"` when the `"response"` object is absent. -/
def _get_traffic_condition (route_data : Alternative) : String :=
  match route_data.response with
  | none => "Unknown traffic conditions"
  | some r =>
    match r.jams with
    | some jam_count =>
      if 0 < jam_count then
        if 5 < jam_count then "Heavy traffic"
        else if 2 < jam_count then "Moderate traffic"
        else "Light traffic with some congestion"
      else trafficFromRouteType r
    | none => trafficFromRouteType r

/-- Mock route data, `_get_mock_route_data`; deterministic in the
`(origin, destination)` pair and the current time `now`. -/
def _get_mock_route_data (origin destination : String) (now : Int) : RouteData :=
  let td : Int × Int :=
    if origin = "91 Abbett St, Scarborough WA 6019" ∧
        destination = "11 Mount St, Perth WA 6000" then
      (25, 14200)
    else if origin = "11 Mount St, Perth WA 6000" ∧
        destination = "91 Abbett St, Scarborough WA 6019" then
      (22, 14200)
    else
      (20, 12000)
  let travel_time_minutes : Int := td.1
  let distance_meters : Int := td.2
  let arrival_time : Int := now + travel_time_minutes * 60
  let directions : List String :=
    if origin = "91 Abbett St, Scarborough WA 6019" ∧
        destination = "11 Mount St, Perth WA 6000" then
      ["Head south on Abbett St toward Brighton Rd",
       "Turn right onto Scarborough Beach Rd",
       "Turn left onto West Coast Hwy",
       "Continue onto Mounts Bay Rd",
       "Turn right onto Mount St",
       "Arrive at destination on left"]
    else if origin = "11 Mount St, Perth WA 6000" ∧
        destination = "91 Abbett St, Scarborough WA 6019" then
      ["Head north on Mount St toward St Georges Terrace",
       "Turn left onto Mounts Bay Rd",
       "Continue onto West Coast Hwy",
       "Turn right onto Scarborough Beach Rd",
       "Turn left onto Abbett St",
       "Arrive at destination on right"]
    else
      ["Start driving",
       "Continue straight",
       "Turn at the intersection",
       "Keep going",
       "Arrive at destination"]
  RouteData.mk (some [Route.mk
    (RouteSummary.mk distance_meters (travel_time_minutes * 60) arrival_time now)
    directions
    (some "Light to moderate traffic")
    (some [AlternateRoute.mk "Alternative via Mitchell Freeway"
             ((travel_time_minutes + 5) * 60) (distance_meters + 2000),
           AlternateRoute.mk "Alternative via inland roads"
             ((travel_time_minutes + 8) * 60) (distance_meters - 1000)])])

/-- Directions extraction from the best route in `_transform_waze_response`:
collected only when `"response"` and `"instructions"` are present, keeping
each entry's `"instruction"` value when that key is present. -/
def extractDirections (best_route : Alternative) : List String :=
  match best_route.response with
  | some r =>
    match r.instructions with
    | some is_ => is_.filterMap (fun i => i.instruction)
    | none => []
  | none => []

/-- Label of the i-th alternate route in `_transform_waze_response`:
`"Alternative via <first truthy street name>"` when `"streetNames"` is
present, truthy, and holds a non-empty name, else `"Alternative route i"`. -/
def altRouteName (i : Nat) (r : AltResponse) : String :=
  match r.streetNames with
  | some ns =>
    if ns = [] then "Alternative route " ++ toString i
    else
      match ns.filter (fun n => n ≠ "") with
      | m :: _ => "Alternative via " ++ m
      | [] => "Alternative route " ++ toString i
  | none => "Alternative route " ++ toString i

/-- Alternate-route construction in `_transform_waze_response`: enumerate the
alternatives after the first starting at 1, keeping those with a
`"response"` object. -/
def buildAlternates (rest : List Alternative) : List AlternateRoute :=
  (rest.enumFrom 1).filterMap (fun p =>
    match p.2.response with
    | some ar =>
      some (AlternateRoute.mk (altRouteName p.1 ar)
        (ar.totalSeconds.getD 0) (ar.totalLength.getD 0))
    | none => none)

/-- Response normalization, `_transform_waze_response`: falls back to mock
data when the payload has no (non-empty) alternatives list, else builds the
normalized route from the first alternative with defensive defaults
(1200 seconds, 10000 meters, a 3-step placeholder directions list). -/
def _transform_waze_response (waze_data : WazeData) (origin destination : String)
    (now : Int) : RouteData :=
  match waze_data.alternatives with
  | none => _get_mock_route_data origin destination now
  | some [] => _get_mock_route_data origin destination now
  | some (best_route :: rest) =>
    let travel_time_seconds : Int := (best_route.response.bind AltResponse.totalSeconds).getD 1200
    let arrival_time : Int := now + travel_time_seconds
    let ds := extractDirections best_route
    let directions := if ds = [] then
        ["Start driving", "Follow the route", "Arrive at destination"]
      else ds
    let alternate_routes := buildAlternates rest
    RouteData.mk (some [Route.mk
      (RouteSummary.mk ((best_route.response.bind AltResponse.totalLength).getD 10000)
        travel_time_seconds arrival_time now)
      directions
      (some (_get_traffic_condition best_route))
      (if alternate_routes = [] then none else some alternate_routes)])

/-- Route retrieval, `get_route`.  `outcome` is the provider routing request's
outcome: `.ok` a parsed payload (handed to the transform), `.error` any
raised exception (network error, bad status, parse failure), which falls back
to mock data.  The resolved coordinates only feed the outgoing request
parameters, so they do not appear in the returned data. -/
def get_route (origin destination : String) (outcome : Except Unit WazeData)
    (now : Int) : RouteData :=
  match outcome with
  | Except.ok route_data => _transform_waze_response route_data origin destination now
  | Except.error _ => _get_mock_route_data origin destination now

/-- Formatted alternate-route entry of `format_route_info`. -/
structure FormattedAlt where
  name : String
  total_time : String
  total_distance_km : ℚ
deriving DecidableEq

/-- Formatted summary of `format_route_info`.  `total_distance_km` carries the
numeric value `totalLength / 1000`; the source renders it with one decimal
(`:.1f`), a presentation detail abstracted here. -/
structure FormattedSummary where
  total_time : String
  total_distance_km : ℚ
  departure_time : Int
  arrival_time : Int
deriving DecidableEq

/-- Result of `format_route_info`: either the error shape (`status`,
`message`) or the success shape; absent keys are `none`. -/
structure FormattedRoute where
  status : String
  message : Option String
  summary : Option FormattedSummary
  directions : Option (List String)
  traffic_conditions : Option String
  alternate_routes : Option (List FormattedAlt)
deriving DecidableEq

/-- Formatting, `format_route_info`.  Python's floor division `//` on the
possibly-negative total time is `Int.fdiv`. -/
def format_route_info (route_data : RouteData) : FormattedRoute :=
  match route_data.routes with
  | none => FormattedRoute.mk "error" (some "No route found") none none none none
  | some [] => FormattedRoute.mk "error" (some "No route found") none none none none
  | some (route :: _) =>
    FormattedRoute.mk "success" none
      (some (FormattedSummary.mk
        (toString (Int.fdiv route.summary.totalTime 60) ++ " minutes")
        ((route.summary.totalLength : ℚ) / 1000)
        route.summary.departureTime
        route.summary.arrivalTime))
      (some route.directions)
      (some (route.traffic_conditions.getD "Unknown"))
      (match route.alternate_routes with
       | none => none
       | some alts => some (alts.map (fun alt =>
           FormattedAlt.mk alt.name
             (toString (Int.fdiv alt.total_time 60) ++ " minutes")
             ((alt.total_distance : ℚ) / 1000))))

/-- Routes list of a normalized result (empty when the key is absent). -/
def routesOf (rd : RouteData) : List Route := rd.routes.getD []

/-- First route of a normalized result, when present. -/
def firstRoute? (rd : RouteData) : Option Route := (routesOf rd).head?

/-- Summary of the first route, when present. -/
def summaryOfFirst (rd : RouteData) : Option RouteSummary :=
  (firstRoute? rd).map Route.summary

/-- Duration (seconds) of the first route, when present. -/
def durationOfFirst (rd : RouteData) : Option Int :=
  (firstRoute? rd).map (fun r => r.summary.totalTime)

/-- Directions of the first route, when present. -/
def directionsOfFirst (rd : RouteData) : Option (List String) :=
  (firstRoute? rd).map Route.directions

/-- Alternate routes of the first route, when the key is present. -/
def altsOfFirst (rd : RouteData) : Option (List AlternateRoute) :=
  (firstRoute? rd).bind Route.alternate_routes

/-- Traffic label of the first route, when the key is present. -/
def trafficOfFirst (rd : RouteData) : Option String :=
  (firstRoute? rd).bind Route.traffic_conditions

/-- C2 counterexample: on the known pair (Scarborough home → Perth work) the
mock fallback's duration is 1500 seconds (25 minutes), not the 4140 seconds
(69 minutes) the claim states. -/
theorem c2_counterexample :
    durationOfFirst (_get_mock_route_data "91 Abbett St, Scarborough WA 6019"
      "11 Mount St, Perth WA 6000" 0) = some 1500 ∧ (1500 : Int) ≠ 4140 :=
  ⟨rfl, by decide⟩

/-- C2 (amended): the known pair yields the mock summary 25 minutes
(1500 s) / 14200 m and the reverse pair 22 minutes (1320 s) / 14200 m; both
carry exactly 2 alternate routes whose (time, distance) are offset from the
main route by (+5 min, +2000 m) and (+8 min, −1000 m) respectively. -/
theorem c2_mock_known_pairs (now : Int) :
    summaryOfFirst (_get_mock_route_data "91 Abbett St, Scarborough WA 6019"
        "11 Mount St, Perth WA 6000" now) =
      some (RouteSummary.mk 14200 1500 (now + 1500) now)
    ∧ altsOfFirst (_get_mock_route_data "91 Abbett St, Scarborough WA 6019"
        "11 Mount St, Perth WA 6000" now) =
      some [AlternateRoute.mk "Alternative via Mitchell Freeway" (1500 + 300) (14200 + 2000),
            AlternateRoute.mk "Alternative via inland roads" (1500 + 480) (14200 - 1000)]
    ∧ summaryOfFirst (_get_mock_route_data "11 Mount St, Perth WA 6000"
        "91 Abbett St, Scarborough WA 6019" now) =
      some (RouteSummary.mk 14200 1320 (now + 1320) now)
    ∧ altsOfFirst (_get_mock_route_data "11 Mount St, Perth WA 6000"
        "91 Abbett St, Scarborough WA 6019" now) =
      some [AlternateRoute.mk "Alternative via Mitchell Freeway" (1320 + 300) (14200 + 2000),
            AlternateRoute.mk "Alternative via inland roads" (1320 + 480) (14200 - 1000)] :=
  ⟨rfl, rfl, rfl, rfl⟩

/-- C3 counterexample: an unrecognized pair gets mock duration 1200 seconds
(20 minutes), not the 69 minutes (4140 s) the claim states. -/
theorem c3_counterexample :
    durationOfFirst (_get_mock_route_data "a" "b" 0) = some 1200 ∧
      (1200 : Int) ≠ 4140 :=
  ⟨rfl, by decide⟩

/-- C3 (amended): every pair other than the two known commute pairs gets the
generic mock values, 20 minutes (1200 s) and 12000 m, and the fixed 5-step
generic directions sequence. -/
theorem c3_mock_generic (origin destination : String) (now : Int)
    (h1 : ¬(origin = "91 Abbett St, Scarborough WA 6019" ∧
      destination = "11 Mount St, Perth WA 6000"))
    (h2 : ¬(origin = "11 Mount St, Perth WA 6000" ∧
      destination = "91 Abbett St, Scarborough WA 6019")) :
    summaryOfFirst (_get_mock_route_data origin destination now) =
      some (RouteSummary.mk 12000 1200 (now + 1200) now)
    ∧ directionsOfFirst (_get_mock_route_data origin destination now) =
      some ["Start driving", "Continue straight", "Turn at the intersection",
            "Keep going", "Arrive at destination"] := by
  simp only [_get_mock_route_data, summaryOfFirst, directionsOfFirst, firstRoute?,
    routesOf, if_neg h1, if_neg h2]
  norm_num

/-- C3 witness at the concrete pair ("a", "b"). -/
theorem c3_mock_generic_witness :
    summaryOfFirst (_get_mock_route_data "a" "b" 7) =
      some (RouteSummary.mk 12000 1200 (7 + 1200) 7)
    ∧ directionsOfFirst (_get_mock_route_data "a" "b" 7) =
      some ["Start driving", "Continue straight", "Turn at the intersection",
            "Keep going", "Arrive at destination"] :=
  c3_mock_generic "a" "b" 7 (by decide) (by decide)

/-- Route-type fallback yields the catch-all label when the classification is
absent or unrecognized. -/
lemma trafficFromRouteType_eq_normal (r : AltResponse)
    (hrt : ∀ t, r.routeType = some t → t ≠ "SLOW" ∧ t ≠ "MODERATE" ∧ t ≠ "FAST") :
    trafficFromRouteType r = "Normal traffic conditions" := by
  cases h : r.routeType with
  | none => simp [trafficFromRouteType, h]
  | some t =>
    obtain ⟨h1, h2, h3⟩ := hrt t h
    simp [trafficFromRouteType, h, h1, h2, h3]

/-- Traffic condition of a route alternative always lies in the six labels
produced by `_get_traffic_condition`. -/
lemma traffic_condition_mem (a : Alternative) :
    _get_traffic_condition a ∈
      ["Heavy traffic", "Moderate traffic", "Light traffic with some congestion",
       "Light traffic", "Normal traffic conditions", "Unknown traffic conditions"] := by
  obtain ⟨resp⟩ := a
  cases resp with
  | none => simp [_get_traffic_condition]
  | some r =>
    obtain ⟨ts, tl, ins, sn, jams, rt⟩ := r
    have hfall : trafficFromRouteType (AltResponse.mk ts tl ins sn jams rt) ∈
        ["Heavy traffic", "Moderate traffic", "Light traffic with some congestion",
         "Light traffic", "Normal traffic conditions", "Unknown traffic conditions"] := by
      cases rt with
      | none => simp [trafficFromRouteType]
      | some t =>
        simp only [trafficFromRouteType]
        split_ifs <;> simp
    cases jams with
    | none => simpa [_get_traffic_condition] using hfall
    | some n =>
      simp only [_get_traffic_condition]
      split_ifs <;> simp_all

/-- C4 input: an alternative whose totals give an average speed of exactly
29 km/h (29000 m in 3600 s) with no jam data and no route-type label. -/
def c4Response : AltResponse := AltResponse.mk (some 3600) (some 29000) none none none none

/-- C4 counterexample: on a route with an average speed of exactly 29 km/h
and no provider congestion signal, the code returns
"Normal traffic conditions", not the "Heavy traffic" the claim's
average-speed thresholds require: the code has no average-speed path. -/
theorem c4_counterexample :
    _get_traffic_condition (Alternative.mk (some c4Response)) = "Normal traffic conditions"
    ∧ "Normal traffic conditions" ≠ "Heavy traffic" :=
  ⟨rfl, by decide⟩

/-- C4 (amended): the code never derives the traffic label from locally
computed average speed; whenever jam data is absent (or an empty jam array)
and the route-type classification is absent or unrecognized, the label is
"Normal traffic conditions", whatever the totals (hence whatever the average
speed, 29, 49, 69 or 71 km/h alike). -/
theorem c4_no_average_speed_path (r : AltResponse)
    (hjam : r.jams = none ∨ r.jams = some 0)
    (hrt : ∀ t, r.routeType = some t → t ≠ "SLOW" ∧ t ≠ "MODERATE" ∧ t ≠ "FAST") :
    _get_traffic_condition (Alternative.mk (some r)) = "Normal traffic conditions" := by
  have hfall := trafficFromRouteType_eq_normal r hrt
  rcases hjam with h | h <;> simp [_get_traffic_condition, h, hfall]

/-- C4 witness at the 29 km/h input. -/
theorem c4_no_average_speed_path_witness :
    _get_traffic_condition (Alternative.mk (some c4Response)) = "Normal traffic conditions" :=
  c4_no_average_speed_path c4Response (Or.inl rfl)
    (fun _ ht => Option.noConfusion ht)

/-- C5 input: a present but empty `"response"` object, carrying no traffic
signal at all. -/
def c5Response : AltResponse := AltResponse.mk none none none none none none

/-- C5 counterexample: with a response present but no signal at all the code
returns "Normal traffic conditions", not the "Unknown traffic conditions"
the claim states for the no-signal case. -/
theorem c5_counterexample :
    _get_traffic_condition (Alternative.mk (some c5Response)) = "Normal traffic conditions"
    ∧ "Normal traffic conditions" ≠ "Unknown traffic conditions" :=
  ⟨rfl, by decide⟩

/-- C5 (amended): exactly one signal is consulted per call, in the fixed
precedence jam data (when the jam array is present and non-empty, with
thresholds >5 → Heavy, >2 → Moderate, else Light-with-congestion), then the
provider route-type classification; with no signal the result is
"Normal traffic conditions" (there is no average-speed signal), and
"Unknown traffic conditions" arises exactly when the `"response"` object is
absent. -/
theorem c5_traffic_precedence :
    (∀ r : AltResponse, ∀ n : Nat, r.jams = some n → 0 < n →
      _get_traffic_condition (Alternative.mk (some r)) =
        (if 5 < n then "Heavy traffic"
         else if 2 < n then "Moderate traffic"
         else "Light traffic with some congestion"))
    ∧ (∀ r : AltResponse, r.jams = none ∨ r.jams = some 0 →
      _get_traffic_condition (Alternative.mk (some r)) = trafficFromRouteType r)
    ∧ (∀ r : AltResponse, r.routeType = none →
      trafficFromRouteType r = "Normal traffic conditions")
    ∧ (∀ r : AltResponse, ∀ t, r.routeType = some t →
      t ≠ "SLOW" → t ≠ "MODERATE" → t ≠ "FAST" →
      trafficFromRouteType r = "Normal traffic conditions")
    ∧ (∀ a : Alternative, a.response = none →
      _get_traffic_condition a = "Unknown traffic conditions") := by
  refine ⟨?_, ?_, ?_, ?_, ?_⟩
  · intro r n hj hn
    simp [_get_traffic_condition, hj, hn]
  · intro r hj
    rcases hj with h | h <;> simp [_get_traffic_condition, h]
  · intro r ht
    simp [trafficFromRouteType, ht]
  · intro r t ht h1 h2 h3
    simp [trafficFromRouteType, ht, h1, h2, h3]
  · intro a ha
    simp [_get_traffic_condition, ha]

/-- C5 witness: the precedence theorem evaluated at concrete signals (6 jam
segments → Heavy; no jams with a SLOW classification → the route-type label;
unrecognized classification → Normal; absent response → Unknown). -/
theorem c5_traffic_precedence_witness :
    _get_traffic_condition (Alternative.mk (some (AltResponse.mk none none none none (some 6) (some "SLOW")))) = "Heavy traffic"
    ∧ _get_traffic_condition (Alternative.mk (some (AltResponse.mk none none none none none (some "SLOW")))) = "Heavy traffic"
    ∧ trafficFromRouteType (AltResponse.mk none none none none none none) = "Normal traffic conditions"
    ∧ trafficFromRouteType (AltResponse.mk none none none none none (some "OTHER")) = "Normal traffic conditions"
    ∧ _get_traffic_condition (Alternative.mk none) = "Unknown traffic conditions" := by
  refine ⟨?_, ?_, ?_, ?_, ?_⟩
  · have h := c5_traffic_precedence.1 (AltResponse.mk none none none none (some 6) (some "SLOW")) 6 rfl (by decide)
    simpa using h
  · have h := c5_traffic_precedence.2.1 (AltResponse.mk none none none none none (some "SLOW")) (Or.inl rfl)
    simpa [trafficFromRouteType] using h
  · exact c5_traffic_precedence.2.2.1 (AltResponse.mk none none none none none none) rfl
  · exact c5_traffic_precedence.2.2.2.1 (AltResponse.mk none none none none none (some "OTHER")) "OTHER" rfl (by decide) (by decide) (by decide)
  · exact c5_traffic_precedence.2.2.2.2 (Alternative.mk none) rfl

/-- Mock route data always carries the fixed traffic label. -/
lemma mock_traffic_label (origin destination : String) (now : Int) :
    trafficOfFirst (_get_mock_route_data origin destination now) =
      some "Light to moderate traffic" := rfl

/-- C10: the traffic label on every route returned by `get_route` lies in
the closed set of seven literal strings; the mock fallback path always
attaches "Light to moderate traffic", and the transform path's
`_get_traffic_condition` only produces the other six (so the seventh label
occurs on the mock path only). -/
theorem c10_traffic_label_closed_set :
    (∀ origin destination : String, ∀ outcome : Except Unit WazeData, ∀ now : Int,
      trafficOfFirst (get_route origin destination outcome now) ∈
        (["Heavy traffic", "Moderate traffic", "Light traffic with some congestion",
          "Light traffic", "Normal traffic conditions", "Unknown traffic conditions",
          "Light to moderate traffic"].map Option.some))
    ∧ (∀ origin destination : String, ∀ now : Int,
      trafficOfFirst (_get_mock_route_data origin destination now) =
        some "Light to moderate traffic")
    ∧ (∀ a : Alternative, _get_traffic_condition a ∈
        ["Heavy traffic", "Moderate traffic", "Light traffic with some congestion",
         "Light traffic", "Normal traffic conditions", "Unknown traffic conditions"])
    ∧ (["Heavy traffic", "Moderate traffic", "Light traffic with some congestion",
        "Light traffic", "Normal traffic conditions",
        "Unknown traffic conditions"] : List String).contains "Light to moderate traffic"
        = false := by
  refine ⟨?_, fun o d now => mock_traffic_label o d now, traffic_condition_mem, by decide⟩
  intro origin destination outcome now
  have hmock : ∀ o d : String, ∀ t : Int,
      trafficOfFirst (_get_mock_route_data o d t) ∈
        (["Heavy traffic", "Moderate traffic", "Light traffic with some congestion",
          "Light traffic", "Normal traffic conditions", "Unknown traffic conditions",
          "Light to moderate traffic"].map Option.some) := by
    intro o d t
    rw [mock_traffic_label]
    simp
  cases outcome with
  | error e => exact hmock origin destination now
  | ok w =>
    cases halts : w.alternatives with
    | none =>
      simp only [get_route, _transform_waze_response, halts]
      exact hmock origin destination now
    | some l =>
      cases l with
      | nil =>
        simp only [get_route, _transform_waze_response, halts]
        exact hmock origin destination now
      | cons best rest =>
        have hbest := traffic_condition_mem best
        simp only [get_route, _transform_waze_response, halts, trafficOfFirst,
          firstRoute?, routesOf, Option.getD_some, List.head?_cons, Option.map_some,
          Option.bind_some]
        simp only [List.mem_cons, List.not_mem_nil, or_false] at hbest
        rcases hbest with h | h | h | h | h | h <;> simp [h]

/-- Non-negativity of the optional totals of a provider response object. -/
def respNonneg (r : AltResponse) : Bool :=
  r.totalSeconds.all (fun s => decide (0 ≤ s)) && r.totalLength.all (fun l => decide (0 ≤ l))

/-- Non-negativity of the totals of one provider alternative. -/
def altNonneg (a : Alternative) : Bool :=
  match a.response with
  | none => true
  | some r => respNonneg r

/-- Non-negativity of every total in a provider payload. -/
def dataNonneg (w : WazeData) : Bool :=
  match w.alternatives with
  | none => true
  | some alts => alts.all altNonneg

/-- Non-negativity of every total in a provider request outcome (vacuous on
the exception path). -/
def outcomeNonneg (o : Except Unit WazeData) : Bool :=
  match o with
  | Except.ok w => dataNonneg w
  | Except.error _ => true

/-- C1 input: a provider payload carrying a negative `totalSeconds`. -/
def c1BadData : WazeData :=
  WazeData.mk (some [Alternative.mk (some
    (AltResponse.mk (some (-100)) none none none none none))])

/-- C1 counterexample: the transform path copies provider totals without
clamping, so a payload with `totalSeconds = -100` yields a route whose
duration is negative, refuting unconditional non-negativity on the transform
path. -/
theorem c1_counterexample :
    durationOfFirst (get_route "a" "b" (Except.ok c1BadData) 0) = some (-100)
    ∧ (-100 : Int) < 0 :=
  ⟨rfl, by decide⟩

/-- Projection of a pair in an enumeration is a member of the original
list. -/
lemma snd_mem_of_mem_enumFrom {α : Type _} {l : List α} {n : Nat} {p : Nat × α}
    (h : p ∈ l.enumFrom n) : p.2 ∈ l := by
  induction l generalizing n with
  | nil => simp [List.enumFrom] at h
  | cons a as ih =>
    simp only [List.enumFrom, List.mem_cons] at h
    rcases h with h | h
    · subst h; exact List.mem_cons_self a as
    · exact List.mem_cons_of_mem _ (ih h)

/-- Defaulted read of an optional value, all of whose values are checked
non-negative, is non-negative when the default is. -/
lemma getD_nonneg_of_all {o : Option Int} {d : Int} (hd : 0 ≤ d)
    (h : o.all (fun s => decide (0 ≤ s)) = true) : 0 ≤ o.getD d := by
  cases o with
  | none => simpa using hd
  | some s => simpa using h

/-- Both defensively-defaulted totals of an alternative are non-negative when
the alternative's totals are and the defaults are. -/
lemma alt_totals_nonneg (a : Alternative) (h : altNonneg a = true)
    {d e : Int} (hd : 0 ≤ d) (he : 0 ≤ e) :
    0 ≤ (a.response.bind AltResponse.totalSeconds).getD d
    ∧ 0 ≤ (a.response.bind AltResponse.totalLength).getD e := by
  obtain ⟨resp⟩ := a
  cases resp with
  | none => simpa using ⟨hd, he⟩
  | some r =>
    have hr : (r.totalSeconds.all (fun s => decide (0 ≤ s))
        && r.totalLength.all (fun l => decide (0 ≤ l))) = true := by
      simpa [altNonneg, respNonneg] using h
    rw [Bool.and_eq_true] at hr
    exact ⟨getD_nonneg_of_all hd hr.1, getD_nonneg_of_all he hr.2⟩

/-- Every alternate-route entry the transform builds from non-negative
provider data has non-negative totals. -/
lemma buildAlternates_nonneg (rest : List Alternative)
    (h : rest.all altNonneg = true) :
    ∀ ar ∈ buildAlternates rest, 0 ≤ ar.total_time ∧ 0 ≤ ar.total_distance := by
  intro ar har
  unfold buildAlternates at har
  rw [List.mem_filterMap] at har
  obtain ⟨p, hp, heq⟩ := har
  have hnn : altNonneg p.2 = true := by
    rw [List.all_eq_true] at h
    exact h _ (snd_mem_of_mem_enumFrom hp)
  cases hresp : p.2.response with
  | none => rw [hresp] at heq; cases heq
  | some resp =>
    rw [hresp] at heq
    injection heq with heq
    subst heq
    have hb := alt_totals_nonneg p.2 hnn (le_refl (0 : Int)) (le_refl (0 : Int))
    rw [hresp] at hb
    simpa using hb

/-- Mock route data satisfies the RouteResult invariants unconditionally. -/
lemma mock_route_invariants (origin destination : String) (now : Int) :
    ∀ r ∈ routesOf (_get_mock_route_data origin destination now),
      r.summary.arrivalTime = r.summary.departureTime + r.summary.totalTime
      ∧ 0 ≤ r.summary.totalTime ∧ 0 ≤ r.summary.totalLength ∧ r.directions ≠ []
      ∧ ∀ ar ∈ (r.alternate_routes.getD []), 0 ≤ ar.total_time ∧ 0 ≤ ar.total_distance := by
  intro r hr
  by_cases hc1 : origin = "91 Abbett St, Scarborough WA 6019" ∧
      destination = "11 Mount St, Perth WA 6000"
  · simp [_get_mock_route_data, routesOf, hc1.1, hc1.2] at hr
    subst hr
    exact ⟨rfl, by norm_num, by norm_num, by simp, by norm_num⟩
  · by_cases hc2 : origin = "11 Mount St, Perth WA 6000" ∧
        destination = "91 Abbett St, Scarborough WA 6019"
    · simp [_get_mock_route_data, routesOf, hc2.1, hc2.2] at hr
      subst hr
      exact ⟨rfl, by norm_num, by norm_num, by simp, by norm_num⟩
    · simp [_get_mock_route_data, routesOf, hc1, hc2] at hr
      subst hr
      exact ⟨rfl, by norm_num, by norm_num, by simp, by norm_num⟩

/-- The transform's output satisfies the RouteResult invariants whenever the
provider totals are non-negative. -/
lemma transform_route_invariants (w : WazeData) (origin destination : String)
    (now : Int) (h : dataNonneg w = true) :
    ∀ r ∈ routesOf (_transform_waze_response w origin destination now),
      r.summary.arrivalTime = r.summary.departureTime + r.summary.totalTime
      ∧ 0 ≤ r.summary.totalTime ∧ 0 ≤ r.summary.totalLength ∧ r.directions ≠ []
      ∧ ∀ ar ∈ (r.alternate_routes.getD []), 0 ≤ ar.total_time ∧ 0 ≤ ar.total_distance := by
  cases halts : w.alternatives with
  | none =>
    simp only [_transform_waze_response, halts]
    exact mock_route_invariants origin destination now
  | some l =>
    cases l with
    | nil =>
      simp only [_transform_waze_response, halts]
      exact mock_route_invariants origin destination now
    | cons best rest =>
      have hall : altNonneg best = true ∧ rest.all altNonneg = true := by
        have hh := h
        simp only [dataNonneg, halts, List.all_cons, Bool.and_eq_true] at hh
        exact hh
      intro r hr
      simp only [_transform_waze_response, halts, routesOf, Option.getD_some,
        List.mem_singleton] at hr
      subst hr
      have hts := alt_totals_nonneg best hall.1 (by decide : (0 : Int) ≤ 1200)
        (by decide : (0 : Int) ≤ 10000)
      refine ⟨rfl, hts.1, hts.2, ?_, ?_⟩
      · dsimp only
        split
        · simp
        · assumption
      · dsimp only
        split
        · simp
        · simpa using buildAlternates_nonneg rest hall.2

/-- C1 (amended): every route returned by `get_route` has
`arrival = departure + duration` and a non-empty directions sequence (with
the generic placeholder fallback), and its durations and distances — summary
and alternates — are non-negative provided every total the provider supplied
is non-negative (the mock path needs no proviso; the transform path copies
provider totals unclamped, so a negative provider total violates
non-negativity, see the counterexample). -/
theorem c1_route_result_invariants (origin destination : String)
    (outcome : Except Unit WazeData) (now : Int)
    (h : outcomeNonneg outcome = true) :
    ∀ r ∈ routesOf (get_route origin destination outcome now),
      r.summary.arrivalTime = r.summary.departureTime + r.summary.totalTime
      ∧ 0 ≤ r.summary.totalTime ∧ 0 ≤ r.summary.totalLength ∧ r.directions ≠ []
      ∧ ∀ ar ∈ (r.alternate_routes.getD []), 0 ≤ ar.total_time ∧ 0 ≤ ar.total_distance := by
  cases outcome with
  | error e => exact mock_route_invariants origin destination now
  | ok w =>
    exact transform_route_invariants w origin destination now
      (by simpa [outcomeNonneg] using h)

/-- C1 input for the witness: a small well-formed provider payload. -/
def c1GoodData : WazeData :=
  WazeData.mk (some [Alternative.mk (some
    (AltResponse.mk (some 100) (some 2000) none none none none))])

/-- C1 witness on a concrete non-negative payload. -/
theorem c1_route_result_invariants_witness :
    outcomeNonneg (Except.ok c1GoodData) = true
    ∧ ∀ r ∈ routesOf (get_route "a" "b" (Except.ok c1GoodData) 0),
      r.summary.arrivalTime = r.summary.departureTime + r.summary.totalTime
      ∧ 0 ≤ r.summary.totalTime ∧ 0 ≤ r.summary.totalLength ∧ r.directions ≠ []
      ∧ ∀ ar ∈ (r.alternate_routes.getD []), 0 ≤ ar.total_time ∧ 0 ≤ ar.total_distance :=
  ⟨by decide, c1_route_result_invariants "a" "b" (Except.ok c1GoodData) 0 (by decide)⟩

/-- C6: a provider payload with no (or an empty) alternatives list
normalizes to exactly the provider-exception result: both are the mock route
data for the pair, not a distinct error value. -/
theorem c6_zero_alternatives_eq_exception (origin destination : String)
    (now : Int) (w : WazeData)
    (h : w.alternatives = none ∨ w.alternatives = some []) :
    get_route origin destination (Except.ok w) now =
      get_route origin destination (Except.error ()) now
    ∧ get_route origin destination (Except.ok w) now =
      _get_mock_route_data origin destination now := by
  have hm : get_route origin destination (Except.ok w) now =
      _get_mock_route_data origin destination now := by
    rcases h with h | h <;> simp [get_route, _transform_waze_response, h]
  exact ⟨hm, hm⟩

/-- C6 witness at a concrete empty payload and pair. -/
theorem c6_zero_alternatives_eq_exception_witness :
    get_route "a" "b" (Except.ok (WazeData.mk none)) 0 =
      get_route "a" "b" (Except.error ()) 0
    ∧ get_route "a" "b" (Except.ok (WazeData.mk none)) 0 =
      _get_mock_route_data "a" "b" 0 :=
  c6_zero_alternatives_eq_exception "a" "b" 0 (WazeData.mk none) (Or.inl rfl)

/-- C7 counterexample: for the known address "91 Abbett St, Scarborough WA
6019", a live geocoding result takes priority over the built-in fallback
table — the claim's table-first order would return the table entry
(-31.8941, 115.7586) without consulting the provider. -/
theorem c7_counterexample :
    _get_coordinates_from_address "91 Abbett St, Scarborough WA 6019"
      (Except.ok [((1 : ℚ), (2 : ℚ))]) = ((1 : ℚ), (2 : ℚ))
    ∧ (((1 : ℚ), (2 : ℚ)) : Coord) ≠ ((-31.8941 : ℚ), (115.7586 : ℚ)) :=
  ⟨rfl, by norm_num [Prod.ext_iff]⟩

/-- C7 (amended): resolution attempts the live geocoding request first and
returns its first result when there is one (even for addresses in the
fallback table); only when the live call fails or returns no usable result
does it fall back to the exact-match table, and otherwise to the hard-coded
default (-31.9505, 115.8605) — so resolution always returns a coordinate
pair and never fails the overall request. -/
theorem c7_resolution_order (address : String) (live : Except Unit (List Coord)) :
    (∀ c : Coord, ∀ cs : List Coord, live = Except.ok (c :: cs) →
      _get_coordinates_from_address address live = c)
    ∧ ((live = Except.ok [] ∨ live = Except.error ()) →
      _get_coordinates_from_address address live =
        (if address = "91 Abbett St, Scarborough WA 6019" then ((-31.8941 : ℚ), (115.7586 : ℚ))
         else if address = "11 Mount St, Perth WA 6000" then ((-31.9523 : ℚ), (115.8613 : ℚ))
         else ((-31.9505 : ℚ), (115.8605 : ℚ)))) := by
  constructor
  · intro c cs hl
    subst hl
    rfl
  · intro hl
    rcases hl with hl | hl <;> subst hl <;> rfl

/-- C7 witness: a live hit on a known address resolves to the live result; a
failed live call on an unknown address resolves to the default center. -/
theorem c7_resolution_order_witness :
    _get_coordinates_from_address "91 Abbett St, Scarborough WA 6019"
      (Except.ok [((3 : ℚ), (4 : ℚ))]) = ((3 : ℚ), (4 : ℚ))
    ∧ _get_coordinates_from_address "somewhere else" (Except.error ()) =
      ((-31.9505 : ℚ), (115.8605 : ℚ)) := by
  constructor
  · exact (c7_resolution_order "91 Abbett St, Scarborough WA 6019"
      (Except.ok [((3 : ℚ), (4 : ℚ))])).1 ((3 : ℚ), (4 : ℚ)) [] rfl
  · have h := (c7_resolution_order "somewhere else" (Except.error ())).2 (Or.inr rfl)
    rw [if_neg (by decide), if_neg (by decide)] at h
    exact h

/-- C8 counterexample: an empty Address input does not produce a terminal
error — `get_route` absorbs it (the geocoder falls back to the default
coordinates and the route falls back to mock data) and the normalized output
has success status, not the claimed error status. -/
theorem c8_counterexample :
    (format_route_info (get_route "" "" (Except.error ()) 0)).status = "success"
    ∧ "success" ≠ "error" :=
  ⟨rfl, by decide⟩

/-- C8 (amended): `get_route` never propagates a terminal error for any
Address input, empty or nonsensical included: every failure category is
absorbed and the normalized output always formats with success status.  (The
only error-status result the formatter can produce requires a routes-less
input, which `get_route` never returns; the visible missing-named-location
error lives in the CLI layer, before `get_route` is called.) -/
theorem c8_always_success (origin destination : String)
    (outcome : Except Unit WazeData) (now : Int) :
    (format_route_info (get_route origin destination outcome now)).status =
      "success" := by
  cases outcome with
  | error e => rfl
  | ok w =>
    cases halts : w.alternatives with
    | none => simp [get_route, _transform_waze_response, halts, format_route_info,
        _get_mock_route_data]
    | some l =>
      cases l with
      | nil => simp [get_route, _transform_waze_response, halts, format_route_info,
          _get_mock_route_data]
      | cons best rest => simp [get_route, _transform_waze_response, halts,
          format_route_info]

/-- The constant error result of `format_route_info`. -/
def noRouteFound : FormattedRoute :=
  FormattedRoute.mk "error" (some "No route found") none none none none

/-- C9: on any input whose routes list is missing or empty,
`format_route_info` returns the constant error result — status "error" with
message "No route found" — independent of every other part of the input, so
no summary field is consulted. -/
theorem c9_format_error_no_route (rd : RouteData)
    (h : rd.routes = none ∨ rd.routes = some []) :
    format_route_info rd = noRouteFound := by
  rcases h with h | h <;> simp [format_route_info, h, noRouteFound]

/-- C9 witness at the routes-less input. -/
theorem c9_format_error_no_route_witness :
    format_route_info (RouteData.mk none) = noRouteFound :=
  c9_format_error_no_route (RouteData.mk none) (Or.inl rfl)

end WazeHome
